import Mathlib

/-!
Verification development for the playback-and-lookup core of
`pymrt/visualizer/plot3d.py` (the `animate_sensor_with_gm` function, its inner
`Controller` class and `main_view` setup, and the inline field transform shared
with `plot3d_sensor_with_gm`).

Modelling conventions:
  - Finite float values are represented by rationals (`ℚ`); exact
    floating-point equality becomes decidable equality on `ℚ`.
  - `np.log` is represented symbolically: a positive argument `q` yields the
    constructor `FVal.logOf q` (the float closest to `log q`), a zero argument
    yields `-inf`, a negative argument yields NaN, matching IEEE-754/`np.log`
    semantics.  No claim needs the numeric value of a logarithm, only
    determinism and the NaN and -inf cases.
  - Mutation of the `Controller` traits object is modelled by explicit state
    passing: each handler returns the post-call state together with an
    optional error (a Python exception propagates to the caller, but the
    attribute mutations performed before the raise persist, which the model
    reproduces).
-/

/-- A sensor position / observation coordinate: a row of the embedding
matrix, three float64 components modelled as rationals. -/
abbrev Pos : Type := ℚ × ℚ × ℚ

/-- Error taxonomy.  `notFound` is the spec name for the `IndexError` raised
by `np.where(...)[0][0]` on an empty match; `valueError` is the
`ValueError` raised by `animate_sensor_with_gm` when both PHD inputs are
`None`; `indexError` is a Python `IndexError` from indexing a too-short
list. -/
inductive Err : Type where
  | notFound
  | valueError
  | indexError
deriving DecidableEq, Repr

/-- Decidable equality for `Except` results, used to evaluate the model on
concrete inputs. -/
instance {ε α : Type} [DecidableEq ε] [DecidableEq α] :
    DecidableEq (Except ε α) := fun a b =>
  match a, b with
  | Except.error e1, Except.error e2 =>
    if h : e1 = e2 then isTrue (by rw [h])
    else isFalse (by intro hh; cases hh; exact h rfl)
  | Except.error _, Except.ok _ => isFalse (by intro hh; cases hh)
  | Except.ok _, Except.error _ => isFalse (by intro hh; cases hh)
  | Except.ok a1, Except.ok a2 =>
    if h : a1 = a2 then isTrue (by rw [h])
    else isFalse (by intro hh; cases hh; exact h rfl)

/-- Value of one cell of a display field.  `lit q` is the float `q` taken
verbatim from the stored frame; `logOf q` is `np.log` of the positive
float `q`; `nan` and `neginf` are the results of `np.log` on a negative
and on a zero argument. -/
inductive FVal : Type where
  | lit (q : ℚ)
  | logOf (q : ℚ)
  | nan
  | neginf
deriving DecidableEq, Repr

/-- `np.log` on a single float: NaN for a negative argument, `-inf` for
zero, and the (symbolic) logarithm for a positive argument.  `np.log`
never raises; it emits a runtime warning and returns these values. -/
def npLog (q : ℚ) : FVal :=
  if q < 0 then FVal.nan else if q = 0 then FVal.neginf else FVal.logOf q

/-- `np.finfo(np.float).tiny`: the smallest positive normal float64,
`2 ^ (-1022)`. -/
def tiny : ℚ := 1 / 2 ^ 1022

/-- The field transform of lines 80–83 and 191–196: `np.log(field + eps)`
elementwise when `log_mode` is set, the field unchanged otherwise.  The
explicit `eps` parameter is the spec's configuration knob; the source
always instantiates it with machine `tiny` (see `update_frame` and
`transform_spec`). -/
def transform (field : List ℚ) (log_mode : Bool) (eps : ℚ) : List FVal :=
  if log_mode then field.map (fun x => npLog (x + eps)) else field.map FVal.lit

/-- Row-wise exact equality mask `np.all(embeddings == q, axis=1)`. -/
def matchMask (embeddings : List Pos) (q : Pos) : List Bool :=
  embeddings.map (fun p => decide (p = q))

/-- `np.where(mask)[0]`: the indices at which the mask is true, in
increasing order. -/
def whereTrue (mask : List Bool) : List ℕ :=
  (List.range mask.length).filter (fun i => mask.getD i false)

/-- The exact-match reverse lookup of lines 203–208 (and 251–256):
`np.where(np.all(embeddings == sensor_vec.flatten(), axis=1))[0][0]`.
An empty match list makes the trailing `[0]` raise (`notFound`);
otherwise the first (lowest) matching row index is returned. -/
def lookup_exact (embeddings : List Pos) (q : Pos) : Except Err ℕ :=
  match whereTrue (matchMask embeddings q) with
  | [] => Except.error Err.notFound
  | i :: _ => Except.ok i

/-- The list comprehension of lines 203–208: resolve every observation of
the frame in order; the first failing lookup aborts the whole
comprehension before any mask entry is written. -/
def resolveObs (embeddings : List Pos) : List Pos → Except Err (List ℕ)
  | [] => Except.ok []
  | o :: rest =>
    match lookup_exact embeddings o with
    | Except.error e => Except.error e
    | Except.ok i =>
      match resolveObs embeddings rest with
      | Except.error e => Except.error e
      | Except.ok is => Except.ok (i :: is)

/-- `color_vector[obs_index] = 1.`: fancy-index assignment writing `1.0`
at each listed index. -/
def setOnes (color : List ℚ) (idxs : List ℕ) : List ℚ :=
  idxs.foldl (fun c i => c.set i 1) color

/-- The immutable inputs captured by the closure of
`animate_sensor_with_gm`: the per-frame PHD scalars, the sensor embedding
matrix, the optional per-frame observation lists, and the log-scale
flag. -/
structure Env : Type where
  gm_s_list : List (List ℚ)
  embeddings : List Pos
  observation_list : Option (List (List Pos))
  log_plot : Bool

/-- The mutable state of the `Controller` traits object: the current frame
cursor, the contour scalars last pushed to `phd_contour.mlab_source`, and
the sensor `color_vector` (the highlight mask, floats 0/1). -/
structure Ctrl : Type where
  current_frame : ℤ
  phd_contour : List FVal
  color_vector : List ℚ
deriving DecidableEq, Repr

/-- `Controller.update_frame` (lines 189–212).  Mutations happen in source
order: the contour scalars are set, the color vector is zeroed in place,
then the observation lookups run and — only if all succeed — the resolved
entries are set to one.  A failure after a mutation leaves that mutation
in place (the exception propagates with the state already changed). -/
def update_frame (env : Env) (c : Ctrl) : Ctrl × Option Err :=
  match env.gm_s_list[c.current_frame.toNat]? with
  | none => (c, some Err.indexError)
  | some f =>
    let c1 : Ctrl :=
      { current_frame := c.current_frame
        phd_contour := transform f env.log_plot tiny
        color_vector := List.replicate c.color_vector.length 0 }
    match env.observation_list with
    | none => (c1, none)
    | some ol =>
      match ol[c.current_frame.toNat]? with
      | none => (c1, some Err.indexError)
      | some obs =>
        match resolveObs env.embeddings obs with
        | Except.error e => (c1, some e)
        | Except.ok idxs =>
          ({ c1 with color_vector := setOnes c1.color_vector idxs }, none)

/-- `Controller._next_frame_changed` (lines 177–181): guarded increment of
the cursor, then recompute.  The increment happens before `update_frame`
runs, so it survives an error raised during recomputation. -/
def next_frame_changed (env : Env) (c : Ctrl) : Ctrl × Option Err :=
  if c.current_frame + 1 < (env.gm_s_list.length : ℤ) then
    update_frame env { c with current_frame := c.current_frame + 1 }
  else (c, none)

/-- `Controller._previous_frame_changed` (lines 183–187). -/
def previous_frame_changed (env : Env) (c : Ctrl) : Ctrl × Option Err :=
  if 0 ≤ c.current_frame - 1 then
    update_frame env { c with current_frame := c.current_frame - 1 }
  else (c, none)

/-- A navigation button press. -/
inductive Btn : Type where
  | next
  | prev
deriving DecidableEq, Repr

/-- Dispatch one button press to its handler. -/
def press (env : Env) (c : Ctrl) : Btn → Ctrl × Option Err
  | Btn.next => next_frame_changed env c
  | Btn.prev => previous_frame_changed env c

/-- Run a finite sequence of button presses, keeping the state each
handler leaves behind (errors propagate to the UI toolkit and do not
undo mutations). -/
def runSteps (env : Env) (c : Ctrl) (bs : List Btn) : Ctrl :=
  bs.foldl (fun s b => (press env s b).1) c

/-- The initial display setup of `main_view` (lines 218–257): contour from
frame 0, a zero color vector of registry size, and — when observations
are supplied — the entries resolved from observation set 0 raised to one.
Indexing an empty frame list (line 221) or an empty observation list
(line 250) raises before the controller exists. -/
def main_view_init (env : Env) : Except Err Ctrl :=
  match env.gm_s_list with
  | [] => Except.error Err.indexError
  | f0 :: _ =>
    let color0 : List ℚ := List.replicate env.embeddings.length 0
    match env.observation_list with
    | none =>
      Except.ok
        { current_frame := 0
          phd_contour := transform f0 env.log_plot tiny
          color_vector := color0 }
    | some ol =>
      match ol with
      | [] => Except.error Err.indexError
      | o0 :: _ =>
        match resolveObs env.embeddings o0 with
        | Except.error e => Except.error e
        | Except.ok idxs =>
          Except.ok
            { current_frame := 0
              phd_contour := transform f0 env.log_plot tiny
              color_vector := setOnes color0 idxs }

/-- The input validation of `animate_sensor_with_gm` (lines 146–160): with
precomputed scalars the list is taken as given; otherwise a mixture list
is required (else `ValueError`) and each mixture is sampled in order by
the external `gm_calculate` collaborator (grid folded into the sampler
argument). -/
def animate_setup {M : Type} (gm_s_list : Option (List (List ℚ)))
    (gm_list_list : Option (List M)) (gm_calculate : M → List ℚ) :
    Except Err (List (List ℚ)) :=
  match gm_s_list with
  | some l => Except.ok l
  | none =>
    match gm_list_list with
    | none => Except.error Err.valueError
    | some ml => Except.ok (ml.map gm_calculate)

/-! ### Helper lemmas -/

/-- Default element used with `List.getD` on positions. -/
def pzero : Pos := ((0 : ℚ), (0 : ℚ), (0 : ℚ))

/-! ### Concrete instances used by witnesses and counterexamples -/

/-- The position registered for the second sensor of the two-sensor
registry. -/
def p1 : Pos := ((1 : ℚ), (1 : ℚ), (1 : ℚ))

/-- An observation coordinate matching no registered sensor. -/
def p9 : Pos := ((9 : ℚ), (9 : ℚ), (9 : ℚ))

/-- Two frames, one sensor, no observations. -/
def envW : Env := ⟨[[1], [2]], [pzero], none, false⟩

/-- State at frame 0 of `envW`. -/
def cW : Ctrl := ⟨0, [FVal.lit 1], [0]⟩

/-- State at the last frame of `envW`. -/
def cW2 : Ctrl := ⟨1, [FVal.lit 2], [0]⟩

/-- Three frames, two sensors; frame 1 observes the first sensor. -/
def envA : Env := ⟨[[1], [2], [3]], [pzero, p1], some [[], [pzero], []], false⟩

/-- The initial controller state of `envA`. -/
def c0A : Ctrl := ⟨0, [FVal.lit 1], [0, 0]⟩

/-- Two frames, one sensor, empty observation sets. -/
def envR : Env := ⟨[[1], [2]], [pzero], some [[], []], false⟩

/-- State at frame 0 of `envR`. -/
def cR : Ctrl := ⟨0, [FVal.lit 1], [0]⟩

/-- Two frames, one sensor; frame 1 carries an unmatched observation. -/
def envX : Env := ⟨[[1], [2]], [pzero], some [[], [p9]], false⟩

/-- State at frame 0 of `envX`. -/
def cX : Ctrl := ⟨0, [FVal.lit 1], [0]⟩

lemma filter_range_eq_nil_iff (p : ℕ → Bool) (n : ℕ) :
    (List.range n).filter p = [] ↔ ∀ j, j < n → p j = false := by
  rw [List.filter_eq_nil_iff]
  constructor
  · intro h j hj
    have := h j (List.mem_range.mpr hj)
    simpa using this
  · intro h a ha
    simp [h a (List.mem_range.mp ha)]

lemma filter_range_head (p : ℕ → Bool) (n : ℕ) :
    ∀ (i : ℕ) (t : List ℕ), (List.range n).filter p = i :: t →
      i < n ∧ p i = true ∧ ∀ j, j < i → p j = false := by
  induction n with
  | zero => intro i t h; simp at h
  | succ m ih =>
    intro i t h
    rw [List.range_succ, List.filter_append] at h
    cases hc : (List.range m).filter p with
    | nil =>
      rw [hc, List.nil_append] at h
      by_cases hp : p m = true
      · simp [List.filter, hp] at h
        refine ⟨?_, ?_, ?_⟩
        · omega
        · rw [h.1] at hp; exact hp
        · intro j hj
          rw [← h.1] at hj
          exact (filter_range_eq_nil_iff p m).mp hc j hj
      · simp [List.filter, hp] at h
    | cons a t0 =>
      rw [hc, List.cons_append] at h
      obtain ⟨h4, -⟩ := List.cons.inj h
      obtain ⟨h1, h2, h3⟩ := ih a t0 hc
      rw [← h4]
      exact ⟨Nat.lt_succ_of_lt h1, h2, h3⟩

lemma matchMask_length (emb : List Pos) (q : Pos) :
    (matchMask emb q).length = emb.length := by
  simp [matchMask]

lemma matchMask_getD (emb : List Pos) (q : Pos) (j : ℕ) (hj : j < emb.length) :
    (matchMask emb q).getD j false = decide (emb.getD j pzero = q) := by
  rw [matchMask, List.getD_eq_getElem?_getD, List.getD_eq_getElem?_getD,
    List.getElem?_map, List.getElem?_eq_getElem hj]
  rfl

lemma lookup_exact_ok (emb : List Pos) (q : Pos) (i : ℕ)
    (h : lookup_exact emb q = Except.ok i) :
    i < emb.length ∧ emb.getD i pzero = q ∧ ∀ j, j < i → emb.getD j pzero ≠ q := by
  unfold lookup_exact at h
  split at h
  · cases h
  · rename_i a t hw
    cases h
    unfold whereTrue at hw
    obtain ⟨h1, h2, h3⟩ := filter_range_head _ _ _ _ hw
    rw [matchMask_length] at h1
    refine ⟨h1, ?_, ?_⟩
    · have := matchMask_getD emb q i h1
      rw [h2] at this
      exact (of_decide_eq_true this.symm)
    · intro j hj hq
      have hjlen : j < emb.length := Nat.lt_trans hj h1
      have := matchMask_getD emb q j hjlen
      rw [h3 j hj] at this
      rw [hq] at this
      simp at this

lemma lookup_exact_error_iff (emb : List Pos) (q : Pos) :
    lookup_exact emb q = Except.error Err.notFound ↔
      ∀ j, j < emb.length → emb.getD j pzero ≠ q := by
  constructor
  · intro h j hj hq
    unfold lookup_exact at h
    split at h
    · rename_i hw
      unfold whereTrue at hw
      have := (filter_range_eq_nil_iff _ _).mp hw j
        (by rw [matchMask_length]; exact hj)
      rw [matchMask_getD emb q j hj, hq] at this
      simp at this
    · cases h
  · intro h
    unfold lookup_exact
    split
    · rfl
    · rename_i a t hw
      unfold whereTrue at hw
      obtain ⟨h1, h2, -⟩ := filter_range_head _ _ _ _ hw
      rw [matchMask_length] at h1
      have := matchMask_getD emb q a h1
      rw [h2] at this
      exact absurd (of_decide_eq_true this.symm) (h a h1)

lemma lookup_exact_error_notFound (emb : List Pos) (q : Pos) (e : Err)
    (h : lookup_exact emb q = Except.error e) : e = Err.notFound := by
  unfold lookup_exact at h
  cases hw : whereTrue (matchMask emb q) with
  | nil => rw [hw] at h; cases h; rfl
  | cons a t => rw [hw] at h; cases h

lemma resolveObs_ok_lt (emb : List Pos) (l : List Pos) (idxs : List ℕ)
    (h : resolveObs emb l = Except.ok idxs) :
    ∀ k, k ∈ idxs → k < emb.length := by
  induction l generalizing idxs with
  | nil =>
    cases h
    intro k hk; cases hk
  | cons o rest ih =>
    unfold resolveObs at h
    split at h
    · cases h
    · rename_i i hl
      split at h
      · cases h
      · rename_i is hr
        cases h
        intro k hk
        rcases List.mem_cons.mp hk with hk | hk
        · rw [hk]; exact (lookup_exact_ok emb o i hl).1
        · exact ih is hr k hk

lemma resolveObs_error_notFound (emb : List Pos) (l : List Pos) (e : Err)
    (h : resolveObs emb l = Except.error e) : e = Err.notFound := by
  induction l generalizing e with
  | nil => cases h
  | cons o rest ih =>
    unfold resolveObs at h
    split at h
    · rename_i e0 hl
      cases h
      exact lookup_exact_error_notFound emb o e hl
    · rename_i i hl
      split at h
      · rename_i e0 hr
        cases h
        exact ih e hr
      · cases h

lemma setOnes_cons (c : List ℚ) (i : ℕ) (rest : List ℕ) :
    setOnes c (i :: rest) = setOnes (c.set i 1) rest := rfl

lemma setOnes_length (c : List ℚ) (idxs : List ℕ) :
    (setOnes c idxs).length = c.length := by
  induction idxs generalizing c with
  | nil => rfl
  | cons i rest ih =>
    rw [setOnes_cons, ih, List.length_set]

lemma setOnes_getD (idxs : List ℕ) (c : List ℚ) (j : ℕ) (hj : j < c.length) :
    (setOnes c idxs).getD j 0 = if j ∈ idxs then 1 else c.getD j 0 := by
  induction idxs generalizing c with
  | nil => simp [setOnes]
  | cons i rest ih =>
    rw [setOnes_cons, ih (c.set i 1) (by rw [List.length_set]; exact hj)]
    by_cases hr : j ∈ rest
    · simp [hr]
    · by_cases hij : j = i
      · subst hij
        simp only [hr, if_false, List.mem_cons, true_or, if_true]
        rw [List.getD_eq_getElem?_getD, List.getElem?_set]
        simp [hj]
      · have hne : ¬i = j := fun hh => hij hh.symm
        have hmem : ¬j ∈ i :: rest := by
          intro hm
          rcases List.mem_cons.mp hm with hm | hm
          · exact hij hm
          · exact hr hm
        simp only [hr, if_false, hmem, if_false]
        rw [List.getD_eq_getElem?_getD, List.getElem?_set,
          List.getD_eq_getElem?_getD]
        simp [hne]

lemma update_frame_current_frame (env : Env) (c : Ctrl) :
    ((update_frame env c).1).current_frame = c.current_frame := by
  unfold update_frame
  split
  · rfl
  · split
    · rfl
    · split
      · rfl
      · split <;> rfl

lemma update_frame_color_length (env : Env) (c : Ctrl) :
    ((update_frame env c).1).color_vector.length = c.color_vector.length := by
  unfold update_frame
  split
  · rfl
  · split
    · simp
    · split
      · simp
      · split
        · simp
        · simp [setOnes_length]

lemma update_frame_fixpoint (env : Env) (c d : Ctrl)
    (H : update_frame env c = (c, none))
    (hcf : d.current_frame = c.current_frame)
    (hlen : d.color_vector.length = c.color_vector.length) :
    update_frame env d = (c, none) := by
  unfold update_frame at H ⊢
  rw [hcf, hlen]
  split
  · rename_i h1
    rw [h1] at H
    simp at H
  · rename_i f h1
    rw [h1] at H
    exact H

lemma next_frame_changed_bounds (env : Env) (c : Ctrl)
    (h0 : 0 ≤ c.current_frame)
    (h1 : c.current_frame < (env.gm_s_list.length : ℤ)) :
    0 ≤ ((next_frame_changed env c).1).current_frame ∧
      ((next_frame_changed env c).1).current_frame < (env.gm_s_list.length : ℤ) := by
  unfold next_frame_changed
  split
  · rename_i hlt
    rw [update_frame_current_frame]
    constructor
    · show 0 ≤ c.current_frame + 1
      omega
    · show c.current_frame + 1 < (env.gm_s_list.length : ℤ)
      exact hlt
  · exact ⟨h0, h1⟩

lemma previous_frame_changed_bounds (env : Env) (c : Ctrl)
    (h0 : 0 ≤ c.current_frame)
    (h1 : c.current_frame < (env.gm_s_list.length : ℤ)) :
    0 ≤ ((previous_frame_changed env c).1).current_frame ∧
      ((previous_frame_changed env c).1).current_frame < (env.gm_s_list.length : ℤ) := by
  unfold previous_frame_changed
  split
  · rename_i hge
    rw [update_frame_current_frame]
    constructor
    · show 0 ≤ c.current_frame - 1
      exact hge
    · show c.current_frame - 1 < (env.gm_s_list.length : ℤ)
      omega
  · exact ⟨h0, h1⟩

lemma runSteps_bounds (env : Env) (bs : List Btn) (c : Ctrl)
    (h0 : 0 ≤ c.current_frame)
    (h1 : c.current_frame < (env.gm_s_list.length : ℤ)) :
    0 ≤ (runSteps env c bs).current_frame ∧
      (runSteps env c bs).current_frame < (env.gm_s_list.length : ℤ) := by
  induction bs generalizing c with
  | nil => exact ⟨h0, h1⟩
  | cons b rest ih =>
    have hstep : 0 ≤ ((press env c b).1).current_frame ∧
        ((press env c b).1).current_frame < (env.gm_s_list.length : ℤ) := by
      cases b
      · exact next_frame_changed_bounds env c h0 h1
      · exact previous_frame_changed_bounds env c h0 h1
    exact ih ((press env c b).1) hstep.1 hstep.2

lemma update_frame_contour (env : Env) (c : Ctrl) (f : List ℚ)
    (h : env.gm_s_list[c.current_frame.toNat]? = some f) :
    ((update_frame env c).1).phd_contour = transform f env.log_plot tiny := by
  unfold update_frame
  simp only [h]
  split
  · rfl
  · split
    · rfl
    · split <;> rfl

lemma update_frame_res_error (env : Env) (c : Ctrl) (ol : List (List Pos))
    (obs : List Pos) (f : List ℚ) (e : Err)
    (hf : env.gm_s_list[c.current_frame.toNat]? = some f)
    (hol : env.observation_list = some ol)
    (hobs : ol[c.current_frame.toNat]? = some obs)
    (hres : resolveObs env.embeddings obs = Except.error e) :
    update_frame env c =
      ({ current_frame := c.current_frame
         phd_contour := transform f env.log_plot tiny
         color_vector := List.replicate c.color_vector.length 0 },
        some e) := by
  unfold update_frame
  simp only [hf, hol, hobs, hres]

/-! ### Claims -/

/-- C2: for every registry and query, `lookup_exact` matches by exact
floating-point equality: an `ok i` result is the lowest index whose
registered position equals the query exactly, and the lookup fails with
`NotFoundError` precisely when no registered position equals the query. -/
theorem lookup_exact_spec (emb : List Pos) (q : Pos) :
    (∀ i, lookup_exact emb q = Except.ok i →
      i < emb.length ∧ emb.getD i pzero = q ∧
        ∀ j, j < i → emb.getD j pzero ≠ q) ∧
    (lookup_exact emb q = Except.error Err.notFound ↔
      ∀ j, j < emb.length → emb.getD j pzero ≠ q) :=
  ⟨fun i h => lookup_exact_ok emb q i h, lookup_exact_error_iff emb q⟩

/-- Witness for C2: in the registry `[(0,0,0), (1,1,1)]` the query
`(1,1,1)` resolves to index 1, the first match in registration order. -/
theorem lookup_exact_spec_witness :
    1 < ([pzero, p1] : List Pos).length ∧
      ([pzero, p1] : List Pos).getD 1 pzero = p1 ∧
      ∀ j, j < 1 → ([pzero, p1] : List Pos).getD j pzero ≠ p1 :=
  (lookup_exact_spec [pzero, p1] p1).1 1 (by decide)

/-- C3: from the initial state (frame index 0) of a non-empty frame
sequence, the current frame index stays in `[0, N-1]` after each prefix
of any finite sequence of navigation calls. -/
theorem current_frame_in_range (env : Env) (c0 : Ctrl) (bs : List Btn) (n : ℕ)
    (hN : 1 ≤ env.gm_s_list.length) (h0 : c0.current_frame = 0) :
    0 ≤ (runSteps env c0 (List.take n bs)).current_frame ∧
      (runSteps env c0 (List.take n bs)).current_frame <
        (env.gm_s_list.length : ℤ) := by
  apply runSteps_bounds
  · rw [h0]
  · rw [h0]
    omega

/-- Witness for C3 on a two-frame sequence and a single forward step. -/
theorem current_frame_in_range_witness :
    0 ≤ (runSteps envW cW (List.take 1 [Btn.next])).current_frame ∧
      (runSteps envW cW (List.take 1 [Btn.next])).current_frame <
        (envW.gm_s_list.length : ℤ) :=
  current_frame_in_range envW cW [Btn.next] 1 (by decide) (by decide)

/-- C4: boundary navigation is a no-op: `step_backward` at index 0 and
`step_forward` at index N-1 leave the state (cursor and previously
produced display) unchanged and emit no new update. -/
theorem boundary_noop (env : Env) (c : Ctrl) :
    (c.current_frame = 0 → previous_frame_changed env c = (c, none)) ∧
    (c.current_frame = (env.gm_s_list.length : ℤ) - 1 →
      next_frame_changed env c = (c, none)) := by
  constructor
  · intro h
    unfold previous_frame_changed
    have hg : ¬(0 ≤ c.current_frame - 1) := by omega
    rw [if_neg hg]
  · intro h
    unfold next_frame_changed
    have hg : ¬(c.current_frame + 1 < (env.gm_s_list.length : ℤ)) := by omega
    rw [if_neg hg]

/-- Witness for C4: backward at frame 0 and forward at the last frame of a
two-frame sequence both leave the state untouched. -/
theorem boundary_noop_witness :
    previous_frame_changed envW cW = (cW, none) ∧
      next_frame_changed envW cW2 = (cW2, none) :=
  ⟨(boundary_noop envW cW).1 (by decide), (boundary_noop envW cW2).2 (by decide)⟩

/-- C6: the field transform is a pure function of its arguments: with
`log_mode` off it returns the field unchanged; with `log_mode` on it
returns `log(field + epsilon)` elementwise; and the display recomputation
instantiates `epsilon` with the machine-tiny default
`np.finfo(np.float).tiny = 2 ^ (-1022)`. -/
theorem transform_spec (field : List ℚ) (eps : ℚ) :
    transform field false eps = field.map FVal.lit ∧
    transform field true eps = field.map (fun x => npLog (x + eps)) ∧
    tiny = 1 / 2 ^ 1022 ∧
    ∀ (env : Env) (c : Ctrl) (f : List ℚ),
      env.gm_s_list[c.current_frame.toNat]? = some f →
      ((update_frame env c).1).phd_contour = transform f env.log_plot tiny :=
  ⟨rfl, rfl, rfl, fun env c f h => update_frame_contour env c f h⟩

/-- Witness for C6 on a one-element field and the `envW` controller. -/
theorem transform_spec_witness :
    transform [(1 : ℚ)] false tiny = [FVal.lit 1] ∧
    transform [(1 : ℚ)] true tiny = [(1 : ℚ)].map (fun x => npLog (x + tiny)) ∧
    tiny = 1 / 2 ^ 1022 ∧
    ((update_frame envW cW).1).phd_contour = transform [(1 : ℚ)] envW.log_plot tiny := by
  obtain ⟨h1, h2, h3, h4⟩ := transform_spec [(1 : ℚ)] tiny
  exact ⟨h1, h2, h3, h4 envW cW [(1 : ℚ)] (by decide)⟩

/-- C7 counterexample: with `log_mode` on and an element of
`field + epsilon` below zero, the transform does not fail with a
`DomainError` — `np.log` silently returns a field containing NaN. -/
theorem transform_nan_silent_cex :
    transform [(-1 : ℚ)] true tiny = [FVal.nan] := by
  have h : (-1 : ℚ) + tiny < 0 := by rw [tiny]; norm_num
  simp [transform, npLog, h]

/-- C7 amended: with `log_mode` on the transform never raises: it applies
`np.log` to `field + epsilon` unconditionally, yielding NaN for a
negative element and `-inf` for a zero element silently; when every
element of `field + epsilon` is positive no NaN or infinity appears. -/
theorem transform_log_total (field : List ℚ) (eps : ℚ) :
    transform field true eps = field.map (fun x => npLog (x + eps)) ∧
    (∀ x, x ∈ field → x + eps < 0 → npLog (x + eps) = FVal.nan) ∧
    (∀ x, x ∈ field → x + eps = 0 → npLog (x + eps) = FVal.neginf) ∧
    (∀ x, x ∈ field → 0 < x + eps → npLog (x + eps) = FVal.logOf (x + eps)) := by
  refine ⟨rfl, ?_, ?_, ?_⟩
  · intro x _ hx
    unfold npLog
    rw [if_pos hx]
  · intro x _ hx
    unfold npLog
    rw [if_neg (by rw [hx]; exact lt_irrefl 0), if_pos hx]
  · intro x _ hx
    unfold npLog
    rw [if_neg (not_lt.mpr (le_of_lt hx)), if_neg (ne_of_gt hx)]

/-- Witness for C7's amended claim on the field `[-2, -1, 1]` with
epsilon 1. -/
theorem transform_log_total_witness :
    npLog ((-2 : ℚ) + 1) = FVal.nan ∧
    npLog ((-1 : ℚ) + 1) = FVal.neginf ∧
    npLog ((1 : ℚ) + 1) = FVal.logOf ((1 : ℚ) + 1) := by
  obtain ⟨-, h1, h2, h3⟩ := transform_log_total [(-2 : ℚ), (-1 : ℚ), (1 : ℚ)] 1
  exact ⟨h1 (-2) (by decide) (by norm_num), h2 (-1) (by decide) (by norm_num),
    h3 1 (by decide) (by norm_num)⟩

/-- C1 counterexample: stepping forward into a frame whose observation
matches no registered sensor raises `NotFoundError`, yet the cursor has
already advanced from 0 to 1 and the contour scalars have already been
replaced — the operation is not atomic. -/
theorem step_forward_not_atomic_cex :
    (next_frame_changed envX cX).2 = some Err.notFound ∧
    ((next_frame_changed envX cX).1).current_frame = 1 ∧
    cX.current_frame = 0 ∧
    ((next_frame_changed envX cX).1).phd_contour ≠ cX.phd_contour := by decide

/-- C1 amended: when an active observation of the target frame matches no
registered sensor position, `step_forward` fails with `NotFoundError`,
but the failure is not atomic: `current_frame` is already advanced to the
target index, the contour is already recomputed for the target frame, and
the highlight mask is zeroed; only the highlight assignment is skipped. -/
theorem step_forward_lookup_failure_state (env : Env) (c : Ctrl)
    (ol : List (List Pos)) (obs : List Pos) (f : List ℚ)
    (hg : c.current_frame + 1 < (env.gm_s_list.length : ℤ))
    (hf : env.gm_s_list[(c.current_frame + 1).toNat]? = some f)
    (hol : env.observation_list = some ol)
    (hobs : ol[(c.current_frame + 1).toNat]? = some obs)
    (hres : resolveObs env.embeddings obs = Except.error Err.notFound) :
    next_frame_changed env c =
      ({ current_frame := c.current_frame + 1
         phd_contour := transform f env.log_plot tiny
         color_vector := List.replicate c.color_vector.length 0 },
        some Err.notFound) := by
  unfold next_frame_changed
  rw [if_pos hg]
  exact update_frame_res_error env { c with current_frame := c.current_frame + 1 }
    ol obs f Err.notFound hf hol hobs hres

/-- Witness for C1's amended claim on `envX`: the failed step lands on
frame 1 with a fresh contour and a zeroed mask. -/
theorem step_forward_lookup_failure_state_witness :
    next_frame_changed envX cX =
      ({ current_frame := cX.current_frame + 1
         phd_contour := transform [(2 : ℚ)] envX.log_plot tiny
         color_vector := List.replicate cX.color_vector.length 0 },
        some Err.notFound) :=
  step_forward_lookup_failure_state envX cX [[], [p9]] [p9] [(2 : ℚ)]
    (by decide) (by decide) (by decide) (by decide) (by decide)

/-- C5: from an interior frame index whose display was produced by the
recomputation at that index, `step_forward` (with resolvable
observations) followed by `step_backward` restores the cursor and
reproduces the identical display state — field and highlight mask. -/
theorem step_forward_backward_roundtrip (env : Env) (c : Ctrl)
    (H : update_frame env c = (c, none))
    (h0 : 0 ≤ c.current_frame)
    (hN : c.current_frame + 1 < (env.gm_s_list.length : ℤ))
    (hfwd : (next_frame_changed env c).2 = none) :
    previous_frame_changed env ((next_frame_changed env c).1) = (c, none) := by
  have hcf1 : ((next_frame_changed env c).1).current_frame = c.current_frame + 1 := by
    unfold next_frame_changed
    rw [if_pos hN, update_frame_current_frame]
  have hlen1 : ((next_frame_changed env c).1).color_vector.length =
      c.color_vector.length := by
    unfold next_frame_changed
    rw [if_pos hN, update_frame_color_length]
  unfold previous_frame_changed
  have hguard : 0 ≤ ((next_frame_changed env c).1).current_frame - 1 := by omega
  rw [if_pos hguard]
  apply update_frame_fixpoint env c _ H
  · show ((next_frame_changed env c).1).current_frame - 1 = c.current_frame
    omega
  · show ((next_frame_changed env c).1).color_vector.length = c.color_vector.length
    exact hlen1

/-- Witness for C5 on `envR`: forward from frame 0 then backward lands
back on the initial state. -/
theorem step_forward_backward_roundtrip_witness :
    previous_frame_changed envR ((next_frame_changed envR cR).1) = (cR, none) :=
  step_forward_backward_roundtrip envR cR (by decide) (by decide) (by decide)
    (by decide)

/-- C8: on a successful recomputation the highlight mask is rebuilt from
scratch for the current frame: it has registry length, and an entry is
one exactly at the indices resolved by `lookup_exact` from the frame's
active observations (zero elsewhere, regardless of the previous mask); a
frame with no observations yields an all-zero mask. -/
theorem highlight_mask_recomputed (env : Env) (c c' : Ctrl)
    (hlen : c.color_vector.length = env.embeddings.length)
    (hok : update_frame env c = (c', none)) :
    c'.color_vector.length = env.embeddings.length ∧
    (match env.observation_list with
     | none => c'.color_vector = List.replicate env.embeddings.length 0
     | some ol => ∃ obs idxs,
         ol[c.current_frame.toNat]? = some obs ∧
         resolveObs env.embeddings obs = Except.ok idxs ∧
         ∀ j, j < env.embeddings.length →
           c'.color_vector.getD j 0 = if j ∈ idxs then 1 else 0) := by
  have hl : c'.color_vector.length = env.embeddings.length := by
    have h := update_frame_color_length env c
    rw [hok] at h
    rw [← hlen]
    exact h
  refine ⟨hl, ?_⟩
  unfold update_frame at hok
  split at hok
  · simp at hok
  · rename_i f h1
    cases h2 : env.observation_list with
    | none =>
      simp only [h2, Prod.mk.injEq] at hok
      obtain ⟨h3, -⟩ := hok
      simp only [h2]
      rw [← h3, hlen]
    | some ol =>
      simp only [h2] at hok
      split at hok
      · simp at hok
      · rename_i obs h3
        split at hok
        · simp at hok
        · rename_i idxs h4
          simp only [Prod.mk.injEq] at hok
          obtain ⟨h5, -⟩ := hok
          simp only [h2]
          refine ⟨obs, idxs, h3, h4, ?_⟩
          intro j hj
          rw [← h5]
          show (setOnes (List.replicate c.color_vector.length 0) idxs).getD j 0 = _
          rw [setOnes_getD idxs _ j
            (by rw [List.length_replicate, hlen]; exact hj)]
          by_cases hmem : j ∈ idxs
          · simp [hmem]
          · simp only [hmem, if_false]
            rw [List.getD_eq_getElem?_getD, List.getElem?_replicate]
            split <;> rfl

/-- Witness for C8 on `envA` at frame 0, whose observation set is empty:
the recomputed mask is all-zero with registry length. -/
theorem highlight_mask_recomputed_witness :
    c0A.color_vector.length = envA.embeddings.length ∧
    (match envA.observation_list with
     | none => c0A.color_vector = List.replicate envA.embeddings.length 0
     | some ol => ∃ obs idxs,
         ol[c0A.current_frame.toNat]? = some obs ∧
         resolveObs envA.embeddings obs = Except.ok idxs ∧
         ∀ j, j < envA.embeddings.length →
           c0A.color_vector.getD j 0 = if j ∈ idxs then 1 else 0) :=
  highlight_mask_recomputed envA c0A c0A (by decide) (by decide)

/-- C9 counterexample: an empty sequence of precomputed scalar fields is
accepted by the construction path of `animate_sensor_with_gm` — no
`ConfigurationError` is raised for length-zero input. -/
theorem empty_fields_accepted_cex :
    animate_setup (some ([] : List (List ℚ))) (none : Option (List Unit))
      (fun _ => ([] : List ℚ)) = Except.ok [] := rfl

/-- C9 amended: construction fails (ValueError) only when neither
precomputed scalar fields nor a mixture list is supplied; an empty
scalar-field sequence is accepted at construction, and the failure
surfaces later as an IndexError when `main_view` accesses frame 0. -/
theorem construction_failure_spec (M : Type) (sample : M → List ℚ)
    (g : Option (List M)) (l : List (List ℚ)) (emb : List Pos)
    (obsl : Option (List (List Pos))) (lp : Bool) :
    animate_setup none (none : Option (List M)) sample =
      Except.error Err.valueError ∧
    animate_setup (some l) g sample = Except.ok l ∧
    main_view_init
        { gm_s_list := [], embeddings := emb,
          observation_list := obsl, log_plot := lp } =
      Except.error Err.indexError :=
  ⟨rfl, rfl, rfl⟩

/-- C10: a successfully constructed playback session starts at frame 0:
the initial cursor is 0, the first contour is the transform of frame 0,
and the initial mask has registry length and is computed from observation
set 0 when observations are supplied (all-zero otherwise). -/
theorem initial_state_spec (env : Env) (c0 : Ctrl)
    (hok : main_view_init env = Except.ok c0) :
    c0.current_frame = 0 ∧
    c0.color_vector.length = env.embeddings.length ∧
    (∃ f0 rest, env.gm_s_list = f0 :: rest ∧
      c0.phd_contour = transform f0 env.log_plot tiny) ∧
    (match env.observation_list with
     | none => c0.color_vector = List.replicate env.embeddings.length 0
     | some ol => ∃ o0 orest idxs, ol = o0 :: orest ∧
         resolveObs env.embeddings o0 = Except.ok idxs ∧
         c0.color_vector = setOnes (List.replicate env.embeddings.length 0) idxs) := by
  unfold main_view_init at hok
  split at hok
  · cases hok
  · rename_i f0 tl h1
    cases h2 : env.observation_list with
    | none =>
      simp only [h2] at hok
      obtain rfl := Except.ok.inj hok
      refine ⟨rfl, ?_, ⟨f0, tl, h1, rfl⟩, ?_⟩
      · show (List.replicate env.embeddings.length (0 : ℚ)).length =
          env.embeddings.length
        rw [List.length_replicate]
      · simp only [h2]
    | some ol =>
      simp only [h2] at hok
      split at hok
      · cases hok
      · rename_i o0 orest
        split at hok
        · cases hok
        · rename_i idxs h4
          obtain rfl := Except.ok.inj hok
          refine ⟨rfl, ?_, ⟨f0, tl, h1, rfl⟩, ?_⟩
          · show (setOnes (List.replicate env.embeddings.length 0) idxs).length =
              env.embeddings.length
            rw [setOnes_length, List.length_replicate]
          · exact ⟨o0, orest, idxs, rfl, h4, rfl⟩

/-- Witness for C10 on `envA`: the session starts at frame 0 with the
frame-0 contour and the mask resolved from observation set 0. -/
theorem initial_state_spec_witness :
    c0A.current_frame = 0 ∧
    c0A.color_vector.length = envA.embeddings.length ∧
    (∃ f0 rest, envA.gm_s_list = f0 :: rest ∧
      c0A.phd_contour = transform f0 envA.log_plot tiny) ∧
    (match envA.observation_list with
     | none => c0A.color_vector = List.replicate envA.embeddings.length 0
     | some ol => ∃ o0 orest idxs, ol = o0 :: orest ∧
         resolveObs envA.embeddings o0 = Except.ok idxs ∧
         c0A.color_vector = setOnes (List.replicate envA.embeddings.length 0) idxs) :=
  initial_state_spec envA c0A (by decide)
